import Mathlib

/-!
Shallow embedding of the join-and-capture orchestration in
src/spawner/src/index.ts (class GoogleMeetRecorder and the module entry
point main).

The program drives a sequence of asynchronous external operations
(browser launch, page creation, in-page script evaluation, navigation,
XPath queries, clicks/typing, recorder start/stop, a timed wait, browser
close).  Each external operation either resolves or rejects; the
embedding makes that choice explicit in an environment record Env, one
Boolean per operation, plus one Boolean per optional UI element saying
whether the corresponding XPath query matches anything on the page.

Running startRecording against an Env produces an observable Trace:
which elements were clicked or typed into, how often recorder.start /
recorder.stop / browser.close were invoked and with which arguments,
which errors reached the catch block's console.error, and whether the
method's returned promise resolved or rejected.  The definitions below
are a line-by-line translation of the source control flow; in
particular, browser.newPage, the first page.evaluate and
page.setExtraHTTPHeaders sit before the try block (so the finally does
not cover them), the catch block only logs, and the finally only closes
the browser.
-/

/-- The three DOM elements that the three XPath queries of startRecording
can match: the "Continue without microphone and camera" span, the
"Your name" input, and the "Ask to join" span. -/
inductive Elem
  | continueBtn
  | nameInput
  | joinBtn
deriving DecidableEq

/-- Rejection reasons of the external operations, one constructor per
await site of startRecording, plus the two Error values thrown by the
interaction primitives themselves (their string messages in the source
are 'Element not found for clicking' and 'Element not found for typing'). -/
inductive Err
  | launchFailed
  | newPageFailed
  | evalPermFailed
  | headersFailed
  | recorderCtorFailed
  | navigationFailed
  | overrideFailed
  | viewportFailed
  | clickFailed (e : Elem)
  | typeFailed (e : Elem)
  | elementMissingClick
  | elementMissingType
  | startFailed
  | waitFailed
  | stopFailed
  | closeFailed
deriving DecidableEq

/-- Observable events of one job: every effect the claims talk about. -/
structure Trace where
  browserLaunched : Bool
  closeCalls : Nat
  recorderStartPaths : List String
  recorderStopCalls : Nat
  clicks : List Elem
  selectAllClicks : List Elem
  typed : List (Elem × String)
  elementMissingRaised : Nat
  caughtLogged : List Err
deriving DecidableEq

/-- The empty trace at the beginning of a startRecording call. -/
def Trace.init : Trace :=
  { browserLaunched := false
    closeCalls := 0
    recorderStartPaths := []
    recorderStopCalls := 0
    clicks := []
    selectAllClicks := []
    typed := []
    elementMissingRaised := 0
    caughtLogged := [] }

/-- Environment of one job: whether each external operation resolves,
and which of the three optional UI elements are present on the page. -/
structure Env where
  launchOk : Bool
  newPageOk : Bool
  evalPermOk : Bool
  headersOk : Bool
  recorderCtorOk : Bool
  gotoOk : Bool
  overrideOk : Bool
  viewportOk : Bool
  continuePresent : Bool
  continueClickOk : Bool
  namePresent : Bool
  nameSelectClickOk : Bool
  nameTypeOk : Bool
  joinPresent : Bool
  joinClickOk : Bool
  startOk : Bool
  waitOk : Bool
  stopOk : Bool
  closeOk : Bool
deriving DecidableEq

/-- The match list page.$x returns for each of the three XPath queries,
in document order, given the page state described by env. -/
def xpathMatches (env : Env) : Elem → List Elem
  | Elem.continueBtn => if env.continuePresent then [Elem.continueBtn] else []
  | Elem.nameInput => if env.namePresent then [Elem.nameInput] else []
  | Elem.joinBtn => if env.joinPresent then [Elem.joinBtn] else []

/-- findElementByXPath: awaits page.$x and returns
elements.length > 0 ? elements[0] : null.  It is a total function: an
empty match list yields none, it never throws for absence. -/
def findElementByXPath (elements : List Elem) : Option Elem :=
  if h : 0 < elements.length then some (elements.get ⟨0, h⟩) else none

/-- clickElement: if the element is non-null it awaits element.click()
(whose resolution is clickOk); a null element hits the else branch that
throws 'Element not found for clicking'. -/
def clickElement (oe : Option Elem) (clickOk : Bool) (t : Trace) : Trace × Option Err :=
  match oe with
  | some e =>
      ({ t with clicks := t.clicks ++ [e] },
       if clickOk then none else some (Err.clickFailed e))
  | none =>
      ({ t with elementMissingRaised := t.elementMissingRaised + 1 },
       some Err.elementMissingClick)

/-- typeInElement: if the element is non-null it awaits
element.click with clickCount 3 (select all existing text) and then
element.type text; a null element hits the else branch that throws
'Element not found for typing'.  If the select-all click rejects, the
type call is never reached. -/
def typeInElement (oe : Option Elem) (text : String) (selectClickOk typeOk : Bool)
    (t : Trace) : Trace × Option Err :=
  match oe with
  | some e =>
      let t1 := { t with selectAllClicks := t.selectAllClicks ++ [e] }
      if selectClickOk then
        ({ t1 with typed := t1.typed ++ [(e, text)] },
         if typeOk then none else some (Err.typeFailed e))
      else
        (t1, some (Err.clickFailed e))
  | none =>
      ({ t with elementMissingRaised := t.elementMissingRaised + 1 },
       some Err.elementMissingType)

/-- Sequencing of two awaited steps: the second runs only when the first
resolved; a rejection short-circuits with the trace accumulated so far. -/
def andThen (s : Trace × Option Err) (k : Trace → Trace × Option Err) : Trace × Option Err :=
  match s with
  | (t, none) => k t
  | (t, some e) => (t, some e)

/-- Step for the "Continue without microphone and camera" button:
locate it, and only if non-null click it. -/
def stepContinue (env : Env) (t : Trace) : Trace × Option Err :=
  match findElementByXPath (xpathMatches env Elem.continueBtn) with
  | some el => clickElement (some el) env.continueClickOk t
  | none => (t, none)

/-- Step for the "Your name" input: locate it, and only if non-null type
the fixed display name into it. -/
def stepName (env : Env) (t : Trace) : Trace × Option Err :=
  match findElementByXPath (xpathMatches env Elem.nameInput) with
  | some el => typeInElement (some el) "Meeting Bot" env.nameSelectClickOk env.nameTypeOk t
  | none => (t, none)

/-- Step for the "Ask to join" button: locate it, and only if non-null
click it. -/
def stepJoin (env : Env) (t : Trace) : Trace × Option Err :=
  match findElementByXPath (xpathMatches env Elem.joinBtn) with
  | some el => clickElement (some el) env.joinClickOk t
  | none => (t, none)

/-- The recorder job object: the three private fields of
GoogleMeetRecorder, all assigned in the constructor and nowhere else. -/
structure GoogleMeetRecorder where
  meetUrl : String
  recordingDuration : Nat
  videoOutputPath : String
deriving DecidableEq

/-- Model of node's path.join for the two-argument calls in the source. -/
def pathJoin (a b : String) : String := a ++ "/" ++ b

/-- Default of the recordingDuration constructor parameter. -/
def defaultRecordingDuration : Nat := 30000

/-- Default of the videoDir constructor parameter:
path.join(process.cwd(), 'report', 'video'). -/
def defaultVideoDir (cwd : String) : String := pathJoin (pathJoin cwd "report") "video"

/-- Decimal rendering of a natural number: the JS template-literal
conversion applied to the Date.now() timestamp in the constructor. -/
def jsNatToString (n : Nat) : String :=
  if n = 0 then "0" else String.mk (((Nat.digits 10 n).map Nat.digitChar).reverse)

/-- The GoogleMeetRecorder constructor: stores meetUrl and
recordingDuration, ensures the video directory exists (a filesystem
effect with no bearing on the stored state), and derives
videoOutputPath as path.join(videoDir, meet_recording_ + Date.now() + .mp4),
where now is the value of Date.now() at construction time. -/
def GoogleMeetRecorder.make (meetUrl : String) (recordingDuration : Nat)
    (videoDir : String) (now : Nat) : GoogleMeetRecorder :=
  { meetUrl := meetUrl
    recordingDuration := recordingDuration
    videoOutputPath := pathJoin videoDir ("meet_recording_" ++ jsNatToString now ++ ".mp4") }

/-- Tail of the try block after the navigator steps:
await recorder.start(this.videoOutputPath), the console.log, the timed
wait page.waitForTimeout(this.recordingDuration), and await
recorder.stop().  recorder.stop() is reached only when both
recorder.start and the wait resolved. -/
def recordPhase (r : GoogleMeetRecorder) (env : Env) (t : Trace) : Trace × Option Err :=
  let t2 := { t with recorderStartPaths := t.recorderStartPaths ++ [r.videoOutputPath] }
  if !env.startOk then (t2, some Err.startFailed) else
  if !env.waitOk then (t2, some Err.waitFailed) else
  let t3 := { t2 with recorderStopCalls := t2.recorderStopCalls + 1 }
  if !env.stopOk then (t3, some Err.stopFailed) else
  (t3, none)

/-- Body of the try block of startRecording: recorder construction,
navigation, the post-navigation media override, viewport setup, the
three optional navigator steps, then the recording phase.  The first
rejection short-circuits to the catch block. -/
def tryBody (r : GoogleMeetRecorder) (env : Env) (t : Trace) : Trace × Option Err :=
  if !env.recorderCtorOk then (t, some Err.recorderCtorFailed) else
  if !env.gotoOk then (t, some Err.navigationFailed) else
  if !env.overrideOk then (t, some Err.overrideFailed) else
  if !env.viewportOk then (t, some Err.viewportFailed) else
  andThen (stepContinue env t) fun t =>
  andThen (stepName env t) fun t =>
  andThen (stepJoin env t) fun t =>
  recordPhase r env t

/-- Result of one startRecording call: the object afterwards (the method
never assigns to this, so it is returned unchanged by construction in
every branch — the theorems make that explicit), the trace, and
some e exactly when the returned promise rejects with e. -/
structure RunResult where
  self : GoogleMeetRecorder
  trace : Trace
  thrown : Option Err
deriving DecidableEq

/-- startRecording: puppeteer.launch, browser.newPage, the pre-navigation
permission evaluate and setExtraHTTPHeaders all sit before the try
block, so a rejection there propagates without running the finally;
inside the try the body runs, a rejection is caught and logged by
console.error (and swallowed), and the finally awaits browser.close()
unconditionally.  The method resolves normally unless a pre-try step or
browser.close itself rejects. -/
def startRecording (r : GoogleMeetRecorder) (env : Env) : RunResult :=
  if !env.launchOk then { self := r, trace := Trace.init, thrown := some Err.launchFailed } else
  let t := { Trace.init with browserLaunched := true }
  if !env.newPageOk then { self := r, trace := t, thrown := some Err.newPageFailed } else
  if !env.evalPermOk then { self := r, trace := t, thrown := some Err.evalPermFailed } else
  if !env.headersOk then { self := r, trace := t, thrown := some Err.headersFailed } else
  match tryBody r env t with
  | (t2, errOpt) =>
    let t3 := match errOpt with
      | some e => { t2 with caughtLogged := t2.caughtLogged ++ [e] }
      | none => t2
    let t4 := { t3 with closeCalls := t3.closeCalls + 1 }
    { self := r, trace := t4,
      thrown := if env.closeOk then none else some Err.closeFailed }

/-- Result of the module's main entry point: the job's trace, the errors
main's own catch (and the trailing .catch(console.error)) logged, and
whether main itself rejected — it never does. -/
structure MainResult where
  trace : Trace
  mainLogged : List Err
  thrown : Option Err
deriving DecidableEq

/-- main: constructs the recorder with the hard-coded meeting URL,
30000 ms and the default video directory, awaits startRecording inside
its own try/catch that logs 'Meet recording failed:' and swallows. -/
def mainRun (cwd : String) (now : Nat) (env : Env) : MainResult :=
  let r := GoogleMeetRecorder.make "https://meet.google.com/emr-eqin-uak" 30000
      (defaultVideoDir cwd) now
  let res := startRecording r env
  match res.thrown with
  | some e => { trace := res.trace, mainLogged := [e], thrown := none }
  | none => { trace := res.trace, mainLogged := [], thrown := none }

/-- A concrete recorder object, used to instantiate theorems on a
closed input. -/
def recEx : GoogleMeetRecorder :=
  { meetUrl := "https://meet.google.com/emr-eqin-uak"
    recordingDuration := 30000
    videoOutputPath := "report/video/meet_recording_17.mp4" }

/-- Environment in which every external operation resolves and all
three optional UI elements are present. -/
def envAllOk : Env :=
  { launchOk := true
    newPageOk := true
    evalPermOk := true
    headersOk := true
    recorderCtorOk := true
    gotoOk := true
    overrideOk := true
    viewportOk := true
    continuePresent := true
    continueClickOk := true
    namePresent := true
    nameSelectClickOk := true
    nameTypeOk := true
    joinPresent := true
    joinClickOk := true
    startOk := true
    waitOk := true
    stopOk := true
    closeOk := true }

/-- Environment where the pre-navigation permission-injection
page.evaluate rejects; everything else would resolve. -/
def envPermFail : Env := { envAllOk with evalPermOk := false }

/-- Environment where page.goto rejects (navigation failure). -/
def envNavFail : Env := { envAllOk with gotoOk := false }

/-- Environment where page.waitForTimeout rejects after a successful
recorder.start. -/
def envWaitFail : Env := { envAllOk with waitOk := false }

/-- Environment where recorder.start rejects. -/
def envStartFail : Env := { envAllOk with startOk := false }

/-- Environment of Scenario B: the continue-without-mic/camera prompt
is absent, everything else resolves. -/
def envScenarioB : Env := { envAllOk with continuePresent := false }

/-- Frame of a navigator step: the step may click or type, but it
leaves the close counter, the element-missing counter, the caught-error
log and the recorder start list untouched. -/
def QuietFrame (t t2 : Trace) : Prop :=
  t2.closeCalls = t.closeCalls ∧
  t2.elementMissingRaised = t.elementMissingRaised ∧
  t2.caughtLogged = t.caughtLogged ∧
  t2.recorderStartPaths = t.recorderStartPaths

/-- Frame of the try-block body: like QuietFrame, except that the
recorder start list may additionally have gained the single entry p
(the job's output path). -/
def TailFrame (p : String) (t t2 : Trace) : Prop :=
  t2.closeCalls = t.closeCalls ∧
  t2.elementMissingRaised = t.elementMissingRaised ∧
  t2.caughtLogged = t.caughtLogged ∧
  (t2.recorderStartPaths = t.recorderStartPaths ∨
   t2.recorderStartPaths = t.recorderStartPaths ++ [p])

theorem tailFrame_rfl (p : String) (t : Trace) : TailFrame p t t :=
  ⟨rfl, rfl, rfl, Or.inl rfl⟩

theorem tailFrame_of_quiet (p : String) {t t2 : Trace} (h : QuietFrame t t2) :
    TailFrame p t t2 :=
  ⟨h.1, h.2.1, h.2.2.1, Or.inl h.2.2.2⟩

theorem quietFrame_trans {a b c : Trace} (h1 : QuietFrame a b) (h2 : QuietFrame b c) :
    QuietFrame a c := by
  obtain ⟨x1, x2, x3, x4⟩ := h1
  obtain ⟨y1, y2, y3, y4⟩ := h2
  exact ⟨y1.trans x1, y2.trans x2, y3.trans x3, y4.trans x4⟩

theorem tailFrame_comp {p : String} {a b c : Trace} (h1 : QuietFrame a b)
    (h2 : TailFrame p b c) : TailFrame p a c := by
  obtain ⟨x1, x2, x3, x4⟩ := h1
  obtain ⟨y1, y2, y3, y4⟩ := h2
  refine ⟨y1.trans x1, y2.trans x2, y3.trans x3, ?_⟩
  cases y4 with
  | inl h => exact Or.inl (h.trans x4)
  | inr h => exact Or.inr (by rw [h, x4])

theorem andThen_tail (p : String) (s : Trace × Option Err)
    (k : Trace → Trace × Option Err) (t : Trace) (hs : QuietFrame t s.1)
    (hk : ∀ u, TailFrame p u (k u).1) :
    TailFrame p t (andThen s k).1 := by
  rcases s with ⟨t1, e⟩
  cases e with
  | none => exact tailFrame_comp hs (hk t1)
  | some e2 => exact tailFrame_of_quiet p hs

theorem stepContinue_quiet (env : Env) (t : Trace) :
    QuietFrame t (stepContinue env t).1 := by
  cases h : env.continuePresent <;>
    simp [stepContinue, xpathMatches, findElementByXPath, clickElement, QuietFrame, h]

theorem stepName_quiet (env : Env) (t : Trace) :
    QuietFrame t (stepName env t).1 := by
  cases h : env.namePresent <;> cases h2 : env.nameSelectClickOk <;>
    simp [stepName, xpathMatches, findElementByXPath, typeInElement, QuietFrame, h, h2]

theorem stepJoin_quiet (env : Env) (t : Trace) :
    QuietFrame t (stepJoin env t).1 := by
  cases h : env.joinPresent <;>
    simp [stepJoin, xpathMatches, findElementByXPath, clickElement, QuietFrame, h]

theorem recordPhase_tail (r : GoogleMeetRecorder) (env : Env) (u : Trace) :
    TailFrame r.videoOutputPath u (recordPhase r env u).1 := by
  cases h1 : env.startOk <;> cases h2 : env.waitOk <;> cases h3 : env.stopOk <;>
    simp [recordPhase, TailFrame, h1, h2, h3]

theorem tryBody_tail (r : GoogleMeetRecorder) (env : Env) (t : Trace) :
    TailFrame r.videoOutputPath t (tryBody r env t).1 := by
  unfold tryBody
  cases h1 : env.recorderCtorOk
  · simpa [h1] using tailFrame_rfl r.videoOutputPath t
  cases h2 : env.gotoOk
  · simpa [h1, h2] using tailFrame_rfl r.videoOutputPath t
  cases h3 : env.overrideOk
  · simpa [h1, h2, h3] using tailFrame_rfl r.videoOutputPath t
  cases h4 : env.viewportOk
  · simpa [h1, h2, h3, h4] using tailFrame_rfl r.videoOutputPath t
  simp only [h1, h2, h3, h4, Bool.not_true, Bool.false_eq_true, if_false]
  refine andThen_tail _ _ _ _ (stepContinue_quiet env t) fun u1 => ?_
  refine andThen_tail _ _ _ _ (stepName_quiet env u1) fun u2 => ?_
  refine andThen_tail _ _ _ _ (stepJoin_quiet env u2) fun u3 => ?_
  exact recordPhase_tail r env u3

/-- Claim C5: the Element Locator returns none (and never throws) when
zero matches exist, and the first match in document order when at least
one exists. -/
theorem claim_C5_locator :
    (findElementByXPath ([] : List Elem) = none) ∧
    (∀ (x : Elem) (xs : List Elem), findElementByXPath (x :: xs) = some x) := by
  refine ⟨rfl, fun x xs => ?_⟩
  simp [findElementByXPath]

/-- Claim C6: each interaction primitive raises its element-missing
error exactly when its argument is the not-found locator result none;
on a non-absent element it performs its action (records the click,
respectively the select-all click and, when that resolves, the typing)
and never raises an element-missing error. -/
theorem claim_C6_primitives :
    ∀ (oe : Option Elem) (txt : String) (ok1 ok2 ok : Bool) (t : Trace) (e : Elem),
    ((clickElement oe ok t).2 = some Err.elementMissingClick ↔ oe = none) ∧
    ((typeInElement oe txt ok1 ok2 t).2 = some Err.elementMissingType ↔ oe = none) ∧
    ((clickElement (some e) ok t).1.clicks = t.clicks ++ [e]) ∧
    ((typeInElement (some e) txt ok1 ok2 t).1.selectAllClicks = t.selectAllClicks ++ [e]) ∧
    ((typeInElement (some e) txt true ok2 t).1.typed = t.typed ++ [(e, txt)]) := by
  intro oe txt ok1 ok2 ok t e
  refine ⟨?_, ?_, ?_, ?_, ?_⟩
  · cases oe <;> cases ok <;> simp [clickElement]
  · cases oe <;> cases ok1 <;> cases ok2 <;> simp [typeInElement]
  · cases ok <;> simp [clickElement]
  · cases ok1 <;> cases ok2 <;> simp [typeInElement]
  · cases ok2 <;> simp [typeInElement]

/-- Claim C10: inside startRecording every call to typeInElement and
clickElement is guarded by a non-null check on the located element, so
the element-missing branches of the primitives are unreachable: over
every environment, the element-missing counter of the job trace is 0. -/
theorem claim_C10_guards (r : GoogleMeetRecorder) (env : Env) :
    (startRecording r env).trace.elementMissingRaised = 0 := by
  unfold startRecording
  cases h1 : env.launchOk
  · simp [h1, Trace.init]
  cases h2 : env.newPageOk
  · simp [h1, h2, Trace.init]
  cases h3 : env.evalPermOk
  · simp [h1, h2, h3, Trace.init]
  cases h4 : env.headersOk
  · simp [h1, h2, h3, h4, Trace.init]
  have ht := tryBody_tail r env { Trace.init with browserLaunched := true }
  rcases hb : tryBody r env { Trace.init with browserLaunched := true } with ⟨t2, e⟩
  rw [hb] at ht
  obtain ⟨-, hm, -, -⟩ := ht
  simp only [h1, h2, h3, h4]
  rw [hb]
  cases e <;> simp_all [Trace.init]

/-- Claim C9: the three fields of the job object are fixed at
construction: startRecording returns the object unchanged in every
environment, and every path ever handed to recorder.start is exactly
the constructed videoOutputPath. -/
theorem claim_C9_immutable (r : GoogleMeetRecorder) (env : Env) :
    (startRecording r env).self = r ∧
    ((startRecording r env).trace.recorderStartPaths.all
      fun p => p == r.videoOutputPath) = true := by
  unfold startRecording
  cases h1 : env.launchOk
  · simp [h1, Trace.init]
  cases h2 : env.newPageOk
  · simp [h1, h2, Trace.init]
  cases h3 : env.evalPermOk
  · simp [h1, h2, h3, Trace.init]
  cases h4 : env.headersOk
  · simp [h1, h2, h3, h4, Trace.init]
  have ht := tryBody_tail r env { Trace.init with browserLaunched := true }
  rcases hb : tryBody r env { Trace.init with browserLaunched := true } with ⟨t2, e⟩
  rw [hb] at ht
  obtain ⟨-, -, -, hp⟩ := ht
  simp only [h1, h2, h3, h4]
  rw [hb]
  cases e <;> rcases hp with hp | hp <;> simp_all [Trace.init]

/-- Claim C2 fails as stated: when the pre-navigation
permission-injection page.evaluate rejects, the launched browser is
never closed, because page.newPage, that evaluate and
setExtraHTTPHeaders run before the try block and the finally that
closes the browser only covers the try block.  Concretely: the browser
was launched, close is called zero times, and the rejection propagates
out of startRecording. -/
theorem claim_C2_counterexample :
    (startRecording recEx envPermFail).trace.browserLaunched = true ∧
    (startRecording recEx envPermFail).trace.closeCalls = 0 ∧
    (startRecording recEx envPermFail).thrown = some Err.evalPermFailed :=
  ⟨rfl, rfl, rfl⟩

/-- Claim C2 amended: once the four pre-try steps (launch, newPage, the
permission-injection evaluate, setExtraHTTPHeaders) have resolved, the
browser is closed exactly once on every exit path, whatever happens
inside the try block; a failure of page creation, of the pre-navigation
permission injection or of header setup instead propagates without
closing the browser. -/
theorem claim_C2_close (r : GoogleMeetRecorder) (env : Env)
    (h1 : env.launchOk = true) (h2 : env.newPageOk = true)
    (h3 : env.evalPermOk = true) (h4 : env.headersOk = true) :
    (startRecording r env).trace.closeCalls = 1 := by
  unfold startRecording
  have ht := tryBody_tail r env { Trace.init with browserLaunched := true }
  rcases hb : tryBody r env { Trace.init with browserLaunched := true } with ⟨t2, e⟩
  rw [hb] at ht
  obtain ⟨hc, -, -, -⟩ := ht
  simp only [h1, h2, h3, h4]
  rw [hb]
  cases e <;> simp_all [Trace.init]

theorem claim_C2_close_witness :
    envAllOk.launchOk = true ∧ (startRecording recEx envAllOk).trace.closeCalls = 1 :=
  ⟨rfl, claim_C2_close recEx envAllOk rfl rfl rfl rfl⟩

/-- Claim C1 fails as stated: on the control-flow path where
recorder.start succeeded and the subsequent timed wait rejects, the
catch block only logs and the finally only closes the browser, so
recorder.stop is invoked zero times — not exactly once.  Concretely:
in envWaitFail the start flag is set and the wait flag is cleared,
recorder.start was invoked with the output path, yet the stop counter
of the finished job is 0. -/
theorem claim_C1_counterexample :
    envWaitFail.startOk = true ∧ envWaitFail.waitOk = false ∧
    (startRecording recEx envWaitFail).trace.recorderStartPaths =
      ["report/video/meet_recording_17.mp4"] ∧
    (startRecording recEx envWaitFail).trace.recorderStopCalls = 0 :=
  ⟨rfl, rfl, rfl, rfl⟩

/-- Claim C1 amended: on every path where recorder.start is reached and
succeeds, recorder.stop is invoked exactly once if the timed wait also
completes (even if stop itself then raises, it was invoked once); but
if the timed wait raises after a successful start, stop is never
invoked — the catch and finally blocks do not attempt it. -/
theorem claim_C1_stop (r : GoogleMeetRecorder) (env : Env)
    (h1 : env.launchOk = true) (h2 : env.newPageOk = true)
    (h3 : env.evalPermOk = true) (h4 : env.headersOk = true)
    (h5 : env.recorderCtorOk = true) (h6 : env.gotoOk = true)
    (h7 : env.overrideOk = true) (h8 : env.viewportOk = true)
    (hc : env.continuePresent = true → env.continueClickOk = true)
    (hn1 : env.namePresent = true → env.nameSelectClickOk = true)
    (hn2 : env.namePresent = true → env.nameTypeOk = true)
    (hj : env.joinPresent = true → env.joinClickOk = true)
    (h9 : env.startOk = true) :
    (env.waitOk = true → (startRecording r env).trace.recorderStopCalls = 1) ∧
    (env.waitOk = false → (startRecording r env).trace.recorderStopCalls = 0) := by
  cases hcp : env.continuePresent <;> cases hnp : env.namePresent <;>
    cases hjp : env.joinPresent <;> cases hwo : env.waitOk <;>
    cases hsto : env.stopOk <;>
    simp_all [startRecording, tryBody, stepContinue, stepName, stepJoin, recordPhase,
      andThen, xpathMatches, findElementByXPath, clickElement, typeInElement, Trace.init]

theorem claim_C1_stop_witness :
    envAllOk.startOk = true ∧ envAllOk.waitOk = true ∧
    (startRecording recEx envAllOk).trace.recorderStopCalls = 1 :=
  ⟨rfl, rfl,
    (claim_C1_stop recEx envAllOk rfl rfl rfl rfl rfl rfl rfl rfl
      (fun _ => rfl) (fun _ => rfl) (fun _ => rfl) (fun _ => rfl) rfl).1 rfl⟩

/-- Claim C3 fails as stated: a navigation failure is indeed caught and
logged inside startRecording, but the job is not reported as failed to
the caller — the catch swallows the error, so the method's promise
resolves normally (thrown = none), indistinguishable from success. -/
theorem claim_C3_counterexample :
    (startRecording recEx envNavFail).trace.caughtLogged = [Err.navigationFailed] ∧
    (startRecording recEx envNavFail).thrown = none :=
  ⟨rfl, rfl⟩

/-- Claim C3 amended: once the pre-try steps have resolved, every error
raised inside the guarded sequence is caught at the startRecording
boundary and logged — the caught-error log equals exactly the
try-block rejection, if any, whether or not the final browser.close
resolves — but it is swallowed rather than reported: whenever
browser.close also resolves, startRecording resolves normally,
indistinguishably from success.  Independently, over every environment
whatsoever — including those where a pre-try step or browser.close
rejects, so that the rejection does propagate out of startRecording —
the entry point main never rejects: its catch swallows and logs
exactly what propagated. -/
theorem claim_C3_boundary (r : GoogleMeetRecorder) (env : Env) (cwd : String) (now : Nat)
    (h1 : env.launchOk = true) (h2 : env.newPageOk = true)
    (h3 : env.evalPermOk = true) (h4 : env.headersOk = true) :
    (startRecording r env).trace.caughtLogged =
      ((tryBody r env { Trace.init with browserLaunched := true }).2).toList ∧
    (env.closeOk = true → (startRecording r env).thrown = none) ∧
    (∀ env2 : Env,
      (mainRun cwd now env2).thrown = none ∧
      (mainRun cwd now env2).mainLogged =
        ((startRecording
          (GoogleMeetRecorder.make "https://meet.google.com/emr-eqin-uak" 30000
            (defaultVideoDir cwd) now) env2).thrown).toList) := by
  refine ⟨?_, ?_, ?_⟩
  · unfold startRecording
    have ht := tryBody_tail r env { Trace.init with browserLaunched := true }
    rcases hb : tryBody r env { Trace.init with browserLaunched := true } with ⟨t2, e⟩
    rw [hb] at ht
    obtain ⟨-, -, hcaught, -⟩ := ht
    simp only [h1, h2, h3, h4]
    rw [hb]
    cases e <;> simp_all [Trace.init]
  · intro h5
    unfold startRecording
    simp only [h1, h2, h3, h4]
    rcases hb : tryBody r env { Trace.init with browserLaunched := true } with ⟨t2, e⟩
    cases e <;> simp_all
  · intro env2
    unfold mainRun
    rcases hth : (startRecording
        (GoogleMeetRecorder.make "https://meet.google.com/emr-eqin-uak" 30000
          (defaultVideoDir cwd) now) env2).thrown with _ | e2 <;>
      simp [hth]

theorem claim_C3_boundary_witness :
    envNavFail.launchOk = true ∧ envNavFail.closeOk = true ∧
    (startRecording recEx envNavFail).trace.caughtLogged = [Err.navigationFailed] ∧
    (startRecording recEx envNavFail).thrown = none ∧
    (mainRun "cwd" 17 envPermFail).thrown = none ∧
    (mainRun "cwd" 17 envPermFail).mainLogged = [Err.evalPermFailed] :=
  ⟨rfl, rfl,
    (claim_C3_boundary recEx envNavFail "cwd" 17 rfl rfl rfl rfl).1,
    (claim_C3_boundary recEx envNavFail "cwd" 17 rfl rfl rfl rfl).2.1 rfl,
    ((claim_C3_boundary recEx envNavFail "cwd" 17 rfl rfl rfl rfl).2.2 envPermFail).1,
    ((claim_C3_boundary recEx envNavFail "cwd" 17 rfl rfl rfl rfl).2.2 envPermFail).2⟩

/-- Claim C4: when recorder.start rejects on an otherwise-successful
path, the job fails with exactly the recorder-failure report in the
catch log, the browser is still closed exactly once by the finally,
and recorder.stop is never invoked since start produced no recording. -/
theorem claim_C4_startFailure (r : GoogleMeetRecorder) (env : Env)
    (h1 : env.launchOk = true) (h2 : env.newPageOk = true)
    (h3 : env.evalPermOk = true) (h4 : env.headersOk = true)
    (h5 : env.recorderCtorOk = true) (h6 : env.gotoOk = true)
    (h7 : env.overrideOk = true) (h8 : env.viewportOk = true)
    (hc : env.continuePresent = true → env.continueClickOk = true)
    (hn1 : env.namePresent = true → env.nameSelectClickOk = true)
    (hn2 : env.namePresent = true → env.nameTypeOk = true)
    (hj : env.joinPresent = true → env.joinClickOk = true)
    (h9 : env.startOk = false) :
    (startRecording r env).trace.caughtLogged = [Err.startFailed] ∧
    (startRecording r env).trace.closeCalls = 1 ∧
    (startRecording r env).trace.recorderStopCalls = 0 := by
  cases hcp : env.continuePresent <;> cases hnp : env.namePresent <;>
    cases hjp : env.joinPresent <;>
    simp_all [startRecording, tryBody, stepContinue, stepName, stepJoin, recordPhase,
      andThen, xpathMatches, findElementByXPath, clickElement, typeInElement, Trace.init]

theorem claim_C4_startFailure_witness :
    envStartFail.startOk = false ∧
    (startRecording recEx envStartFail).trace.caughtLogged = [Err.startFailed] ∧
    (startRecording recEx envStartFail).trace.closeCalls = 1 ∧
    (startRecording recEx envStartFail).trace.recorderStopCalls = 0 :=
  ⟨rfl, claim_C4_startFailure recEx envStartFail rfl rfl rfl rfl rfl rfl rfl rfl
    (fun _ => rfl) (fun _ => rfl) (fun _ => rfl) (fun _ => rfl) rfl⟩

/-- Claim C7: each navigator step is individually optional — an absent
element is skipped without any error and the later steps and
recorder.start still run, while a present element receives its action.
The clicks, typed text and start invocation of the finished job are
exactly determined by which elements were present. -/
theorem claim_C7_optionalSteps (r : GoogleMeetRecorder) (env : Env)
    (h1 : env.launchOk = true) (h2 : env.newPageOk = true)
    (h3 : env.evalPermOk = true) (h4 : env.headersOk = true)
    (h5 : env.recorderCtorOk = true) (h6 : env.gotoOk = true)
    (h7 : env.overrideOk = true) (h8 : env.viewportOk = true)
    (hc : env.continuePresent = true → env.continueClickOk = true)
    (hn1 : env.namePresent = true → env.nameSelectClickOk = true)
    (hn2 : env.namePresent = true → env.nameTypeOk = true)
    (hj : env.joinPresent = true → env.joinClickOk = true) :
    (startRecording r env).trace.clicks =
      (if env.continuePresent then [Elem.continueBtn] else []) ++
      (if env.joinPresent then [Elem.joinBtn] else []) ∧
    (startRecording r env).trace.typed =
      (if env.namePresent then [(Elem.nameInput, "Meeting Bot")] else []) ∧
    (startRecording r env).trace.selectAllClicks =
      (if env.namePresent then [Elem.nameInput] else []) ∧
    (startRecording r env).trace.recorderStartPaths = [r.videoOutputPath] := by
  cases hcp : env.continuePresent <;> cases hnp : env.namePresent <;>
    cases hjp : env.joinPresent <;> cases hso : env.startOk <;>
    cases hwo : env.waitOk <;> cases hsto : env.stopOk <;>
    simp_all [startRecording, tryBody, stepContinue, stepName, stepJoin, recordPhase,
      andThen, xpathMatches, findElementByXPath, clickElement, typeInElement, Trace.init]

theorem claim_C7_optionalSteps_witness :
    envScenarioB.continuePresent = false ∧ envScenarioB.namePresent = true ∧
    (startRecording recEx envScenarioB).trace.clicks = [Elem.joinBtn] ∧
    (startRecording recEx envScenarioB).trace.typed = [(Elem.nameInput, "Meeting Bot")] ∧
    (startRecording recEx envScenarioB).trace.recorderStartPaths =
      ["report/video/meet_recording_17.mp4"] :=
  ⟨rfl, rfl,
    (claim_C7_optionalSteps recEx envScenarioB rfl rfl rfl rfl rfl rfl rfl rfl
      (fun _ => rfl) (fun _ => rfl) (fun _ => rfl) (fun _ => rfl)).1,
    (claim_C7_optionalSteps recEx envScenarioB rfl rfl rfl rfl rfl rfl rfl rfl
      (fun _ => rfl) (fun _ => rfl) (fun _ => rfl) (fun _ => rfl)).2.1,
    (claim_C7_optionalSteps recEx envScenarioB rfl rfl rfl rfl rfl rfl rfl rfl
      (fun _ => rfl) (fun _ => rfl) (fun _ => rfl) (fun _ => rfl)).2.2.2⟩

theorem digitChar_inj_lt (a b : Nat) (ha : a < 10) (hb : b < 10)
    (h : Nat.digitChar a = Nat.digitChar b) : a = b := by
  interval_cases a <;> interval_cases b <;> revert h <;> decide

theorem map_digitChar_inj : ∀ l1 l2 : List Nat, (∀ d ∈ l1, d < 10) → (∀ d ∈ l2, d < 10) →
    l1.map Nat.digitChar = l2.map Nat.digitChar → l1 = l2 := by
  intro l1
  induction l1 with
  | nil =>
    intro l2 _ _ h
    cases l2 with
    | nil => rfl
    | cons y ys => simp at h
  | cons x xs ih =>
    intro l2 h1 h2 h
    cases l2 with
    | nil => simp at h
    | cons y ys =>
      simp only [List.map_cons, List.cons.injEq] at h
      have hx : x = y := digitChar_inj_lt x y (h1 x (by simp)) (h2 y (by simp)) h.1
      have hxs : xs = ys :=
        ih ys (fun d hd => h1 d (by simp [hd])) (fun d hd => h2 d (by simp [hd])) h.2
      rw [hx, hxs]

theorem render_ne_zero_not_zeroChar (n : Nat) (hn : n ≠ 0)
    (h : (((Nat.digits 10 n).map Nat.digitChar).reverse : List Char) = ['0']) : False := by
  have h2 := congrArg List.reverse h
  simp only [List.reverse_reverse] at h2
  have h3 : (Nat.digits 10 n).map Nat.digitChar = ['0'] := by simpa using h2
  cases hdig : Nat.digits 10 n with
  | nil =>
    rw [hdig] at h3
    simp at h3
  | cons d ds =>
    rw [hdig] at h3
    simp only [List.map_cons, List.cons.injEq] at h3
    have hds : ds = [] := List.map_eq_nil_iff.mp h3.2
    have hdmem : d ∈ Nat.digits 10 n := by rw [hdig]; exact List.mem_cons_self d ds
    have hdlt : d < 10 := Nat.digits_lt_base (by norm_num) hdmem
    have hd0 : d = 0 := digitChar_inj_lt d 0 hdlt (by norm_num) (by rw [h3.1]; rfl)
    have hzero : Nat.digits 10 n = [0] := by rw [hdig, hd0, hds]
    have hofd := congrArg (Nat.ofDigits 10) hzero
    rw [Nat.ofDigits_digits] at hofd
    simp [Nat.ofDigits] at hofd
    exact hn hofd

theorem jsNatToString_inj (m n : Nat) (h : jsNatToString m = jsNatToString n) : m = n := by
  unfold jsNatToString at h
  by_cases hm : m = 0 <;> by_cases hn : n = 0
  · rw [hm, hn]
  · exfalso
    rw [if_pos hm, if_neg hn] at h
    have hd : (['0'] : List Char) = ((Nat.digits 10 n).map Nat.digitChar).reverse :=
      congrArg String.data h
    exact render_ne_zero_not_zeroChar n hn hd.symm
  · exfalso
    rw [if_neg hm, if_pos hn] at h
    have hd : ((Nat.digits 10 m).map Nat.digitChar).reverse = (['0'] : List Char) :=
      congrArg String.data h
    exact render_ne_zero_not_zeroChar m hm hd
  · rw [if_neg hm, if_neg hn] at h
    have hd : ((Nat.digits 10 m).map Nat.digitChar).reverse =
        ((Nat.digits 10 n).map Nat.digitChar).reverse := congrArg String.data h
    have hmap := List.reverse_injective hd
    have hdig := map_digitChar_inj (Nat.digits 10 m) (Nat.digits 10 n)
      (fun d hdm => Nat.digits_lt_base (by norm_num) hdm)
      (fun d hdn => Nat.digits_lt_base (by norm_num) hdn) hmap
    exact Nat.digits_inj_iff.mp hdig

theorem string_data_inj {s t : String} (h : s.data = t.data) : s = t := by
  cases s
  cases t
  exact congrArg String.mk h

theorem outputPath_inj (dir : String) (t1 t2 : Nat)
    (h : pathJoin dir ("meet_recording_" ++ jsNatToString t1 ++ ".mp4") =
         pathJoin dir ("meet_recording_" ++ jsNatToString t2 ++ ".mp4")) : t1 = t2 := by
  apply jsNatToString_inj
  apply string_data_inj
  have hd := congrArg String.data h
  simp only [pathJoin, String.data_append, List.append_assoc] at hd
  have h1 := List.append_cancel_left hd
  have h2 := List.append_cancel_left h1
  have h3 := List.append_cancel_left h2
  exact List.append_cancel_right h3

/-- Claim C8: the constructed output path is
videoDir/meet_recording_(timestamp).mp4, the defaults are 30000 ms and
cwd/report/video, and two jobs of the same process whose creation
timestamps differ (by at least one millisecond tick of Date.now()) get
distinct output paths. -/
theorem claim_C8_outputPath (u : String) (d : Nat) (dir cwd : String) (t1 t2 : Nat)
    (h : t1 ≠ t2) :
    (GoogleMeetRecorder.make u d dir t1).videoOutputPath =
      pathJoin dir ("meet_recording_" ++ jsNatToString t1 ++ ".mp4") ∧
    defaultRecordingDuration = 30000 ∧
    defaultVideoDir cwd = pathJoin (pathJoin cwd "report") "video" ∧
    (GoogleMeetRecorder.make u d dir t1).videoOutputPath ≠
      (GoogleMeetRecorder.make u d dir t2).videoOutputPath :=
  ⟨rfl, rfl, rfl, fun hcontra => h (outputPath_inj dir t1 t2 hcontra)⟩

theorem claim_C8_outputPath_witness :
    (0 : Nat) ≠ 1 ∧
    (GoogleMeetRecorder.make "https://meet.google.com/emr-eqin-uak" 30000
        "report/video" 0).videoOutputPath ≠
      (GoogleMeetRecorder.make "https://meet.google.com/emr-eqin-uak" 30000
        "report/video" 1).videoOutputPath :=
  ⟨by decide,
    (claim_C8_outputPath "https://meet.google.com/emr-eqin-uak" 30000 "report/video"
      "cwd" 0 1 (by decide)).2.2.2⟩
